import Mathlib

/-!
Verification of the `blockchain_economic_stimulus` repository.

This file gives a shallow embedding of the parts of the repository that the
verified properties are about:

* the JavaScript helper functions of the real-time monitor component
  (`normalizeDealRow`, `pickNumber`, `safeParseJSON`, `formatTags`, the
  deal-polling logic and its URLs), embedded over an explicit model of
  JavaScript values;
* the SQLite schema of `migrations/001_negotiation.sql`, embedded as row
  types together with the integrity constraints the DDL actually declares;
* the simulation engine, negotiation state machine, settlement ledger and
  monitor listing, whose backend sources are not part of the available
  source tree and are therefore modelled from the specification (each such
  definition carries a doc comment starting with `Modelled from the spec:`).

JavaScript numbers are idealized as rationals with explicit NaN and
infinities; fallible operations return `Option`/`Except`.
-/

namespace EconStim

/-- Model of a JavaScript number: finite values are idealized as exact
rationals (double rounding and overflow are not modelled); NaN and the two
infinities are explicit constructors so that `Number.isFinite` and
truthiness tests can be expressed faithfully. -/
inductive JsNum where
  | nan
  | inf
  | neginf
  | fin (q : ℚ)
deriving DecidableEq, Repr

/-- Model of a JavaScript value as it appears in the monitor component:
`undefined`, `null`, booleans, numbers, strings, objects (association lists
with distinct keys) and arrays. -/
inductive JSVal where
  | vundef
  | vnull
  | vbool (b : Bool)
  | vnum (n : JsNum)
  | vstr (s : String)
  | vobj (kvs : List (String × JSVal))
  | varr (elems : List JSVal)

open JSVal JsNum

/-- JavaScript nullish test (`x == null`, the values skipped by `??`). -/
def isNullish : JSVal → Bool
  | vundef => true
  | vnull => true
  | _ => false

/-- JavaScript `undefined` test (`x !== undefined` is its negation). -/
def isUndef : JSVal → Bool
  | vundef => true
  | _ => false

/-- JavaScript truthiness: `undefined`, `null`, `false`, `0`, `NaN` and the
empty string are falsy; every object and array is truthy. -/
def truthy : JSVal → Bool
  | vundef => false
  | vnull => false
  | vbool b => b
  | vnum .nan => false
  | vnum (.fin q) => q ≠ 0
  | vnum _ => true
  | vstr s => s ≠ ""
  | vobj _ => true
  | varr _ => true

/-- `Array.isArray`. -/
def isArray : JSVal → Bool
  | varr _ => true
  | _ => false

/-- Property access `o.k` on an object; on primitives JavaScript yields
`undefined` (the monitor never accesses a property of `null`/`undefined`
without optional chaining, so that throwing case is also mapped to
`undefined` here). Object keys are assumed distinct, as produced by
`JSON.parse`. -/
def getProp : JSVal → String → JSVal
  | vobj kvs, k =>
    match kvs.find? (fun p => p.1 == k) with
    | some p => p.2
    | none => vundef
  | _, _ => vundef

/-- Optional chaining `o?.k`: `undefined` when `o` is nullish, otherwise
plain property access. -/
def chainGet (v : JSVal) (k : String) : JSVal :=
  if isNullish v then vundef else getProp v k

/-- Nullish coalescing `a ?? b`. -/
def nullishOr (a b : JSVal) : JSVal :=
  if isNullish a then b else a

/-- `Number.isFinite` on the number model. -/
def isFiniteNum : JsNum → Bool
  | .fin _ => true
  | _ => false

/-- Digit list to natural number (most significant first). -/
def digitsVal (ds : List Char) : Nat :=
  ds.foldl (fun a c => a * 10 + (c.toNat - 48)) 0

/-- Parse an optional decimal literal `digits [. digits] [e [+-] digits]`
from a character list, returning the value and the unconsumed rest.
Requires at least one digit overall.  Shared between the model of string
to number coercion and the JSON parser. -/
def parseDec (cs : List Char) : Option (ℚ × List Char) :=
  let ip := cs.takeWhile Char.isDigit
  let rest := cs.drop ip.length
  match rest with
  | '.' :: r2 =>
    let fp := r2.takeWhile Char.isDigit
    let rest2 := r2.drop fp.length
    if ip.isEmpty && fp.isEmpty then none
    else
      let base : ℚ := (digitsVal ip : ℚ) + (digitsVal fp : ℚ) / ((10 : ℚ) ^ fp.length)
      parseExp base rest2
  | _ =>
    if ip.isEmpty then none
    else parseExp (digitsVal ip : ℚ) rest
where
  /-- Optional exponent part. -/
  parseExp (base : ℚ) (cs : List Char) : Option (ℚ × List Char) :=
    match cs with
    | 'e' :: r | 'E' :: r =>
      let (sgn, r2) : ℚ × List Char :=
        match r with
        | '+' :: r2 => (1, r2)
        | '-' :: r2 => (-1, r2)
        | _ => (1, r)
      let ds := r2.takeWhile Char.isDigit
      if ds.isEmpty then none
      else some (base * (10 : ℚ) ^ ((sgn * digitsVal ds : ℚ).num), r2.drop ds.length)
    | _ => some (base, cs)

/-- Model of JavaScript `Number(string)`: surrounding whitespace is
trimmed, the empty string coerces to `0`, `Infinity`/`-Infinity` are
recognized, and otherwise an optionally signed decimal literal must
consume the whole string (hexadecimal/octal/binary literals are outside
the modelled fragment and yield NaN). -/
def strToNum (s : String) : JsNum :=
  let t := s.trim
  if t = "" then .fin 0
  else if t = "Infinity" || t = "+Infinity" then .inf
  else if t = "-Infinity" then .neginf
  else
    let (sgn, cs) : ℚ × List Char :=
      match t.toList with
      | '-' :: r => (-1, r)
      | '+' :: r => (1, r)
      | cs => (1, cs)
    match parseDec cs with
    | some (q, []) => .fin (sgn * q)
    | _ => .nan

/-- Model of JavaScript `Number(x)` / unary `+x` coercion.  Primitive
cases follow the ECMAScript table (`undefined → NaN`, `null → 0`,
booleans to `0`/`1`); plain objects coerce through `"[object Object]"` and
hence to NaN; arrays coerce through their joined string, modelled here for
flat arrays (`[] → 0`, a single primitive element coerces like its string
form, longer arrays give NaN). -/
def toNumber : JSVal → JsNum
  | vundef => .nan
  | vnull => .fin 0
  | vbool b => .fin (if b then 1 else 0)
  | vnum n => n
  | vstr s => strToNum s
  | vobj _ => .nan
  | varr [] => .fin 0
  | varr [vnull] => .fin 0
  | varr [vundef] => .fin 0
  | varr [vnum n] => n
  | varr [vstr s] => strToNum s
  | varr _ => .nan

/-- Decimal expansion of a proper fraction `r / d`, up to `fuel` digits
(models the shortest-roundtrip printing of a double on the idealized
rational fragment; exact for terminating expansions of up to 17 digits). -/
def fracDigits : Nat → Nat → Nat → String
  | 0, _, _ => ""
  | _, 0, _ => ""
  | fuel + 1, r, d =>
    let r10 := r * 10
    String.singleton (Nat.digitChar (r10 / d)) ++ fracDigits fuel (r10 % d) d

/-- Decimal rendering of a rational, used to model JavaScript number to
string conversion for the finite case. -/
def ratToDecStr (q : ℚ) : String :=
  let sgn := if q < 0 then "-" else ""
  let n := q.num.natAbs
  let d := q.den
  if n % d = 0 then sgn ++ toString (n / d)
  else sgn ++ toString (n / d) ++ "." ++ fracDigits 17 (n % d) d

mutual

/-- Model of JavaScript `String(x)` (template-literal interpolation). -/
def jsString : JSVal → String
  | vundef => "undefined"
  | vnull => "null"
  | vbool b => if b then "true" else "false"
  | vnum .nan => "NaN"
  | vnum .inf => "Infinity"
  | vnum .neginf => "-Infinity"
  | vnum (.fin q) => ratToDecStr q
  | vstr s => s
  | vobj _ => "[object Object]"
  | varr l => jsStringArr l

/-- `Array.prototype.toString` = `join(",")`; `null` and `undefined`
elements render as the empty string inside a join. -/
def jsStringArr : List JSVal → String
  | [] => ""
  | [v] => if isNullish v then "" else jsString v
  | v :: rest =>
    (if isNullish v then "" else jsString v) ++ "," ++ jsStringArr rest

end

/-! ### JSON parsing

A fuel-based recursive-descent model of `JSON.parse`, covering objects,
arrays, strings without escape sequences, decimal numbers (with optional
exponent), `true`, `false` and `null`.  Escape sequences inside strings
are outside the modelled fragment and make the parse fail, which
`safeParseJSON` below maps to `null` exactly like a real parse error. -/

/-- JSON whitespace skip. -/
def skipWs (cs : List Char) : List Char :=
  cs.dropWhile (fun c => c == ' ' || c == '\t' || c == '\n' || c == '\r')

/-- Parse the body of a JSON string after the opening quote (no escape
sequences in the modelled fragment). -/
def jparseStr (cs : List Char) : Option (String × List Char) :=
  let body := cs.takeWhile (fun c => c != '"' && c != '\\')
  match cs.drop body.length with
  | '"' :: rest => some (String.mk body, rest)
  | _ => none

mutual

/-- Parse one JSON value. -/
def jparseV : Nat → List Char → Option (JSVal × List Char)
  | 0, _ => none
  | fuel + 1, cs =>
    match skipWs cs with
    | 'n' :: 'u' :: 'l' :: 'l' :: rest => some (vnull, rest)
    | 't' :: 'r' :: 'u' :: 'e' :: rest => some (vbool true, rest)
    | 'f' :: 'a' :: 'l' :: 's' :: 'e' :: rest => some (vbool false, rest)
    | '"' :: rest =>
      match jparseStr rest with
      | some (s, rest2) => some (vstr s, rest2)
      | none => none
    | '[' :: rest =>
      (match skipWs rest with
       | ']' :: rest2 => some (varr [], rest2)
       | _ =>
         match jparseItems fuel rest with
         | some (items, rest2) => some (varr items, rest2)
         | none => none)
    | '{' :: rest =>
      (match skipWs rest with
       | '}' :: rest2 => some (vobj [], rest2)
       | _ =>
         match jparseMembers fuel rest with
         | some (kvs, rest2) => some (vobj kvs, rest2)
         | none => none)
    | '-' :: rest =>
      (match parseDec rest with
       | some (q, rest2) => some (vnum (.fin (-q)), rest2)
       | none => none)
    | c :: rest =>
      if c.isDigit then
        match parseDec (c :: rest) with
        | some (q, rest2) => some (vnum (.fin q), rest2)
        | none => none
      else none
    | [] => none

/-- Parse a comma-separated list of array items up to `]`. -/
def jparseItems : Nat → List Char → Option (List JSVal × List Char)
  | 0, _ => none
  | fuel + 1, cs =>
    match jparseV fuel cs with
    | none => none
    | some (v, rest) =>
      match skipWs rest with
      | ',' :: rest2 =>
        (match jparseItems fuel rest2 with
         | some (items, rest3) => some (v :: items, rest3)
         | none => none)
      | ']' :: rest2 => some ([v], rest2)
      | _ => none

/-- Parse a comma-separated list of object members up to `}`. -/
def jparseMembers : Nat → List Char → Option (List (String × JSVal) × List Char)
  | 0, _ => none
  | fuel + 1, cs =>
    match skipWs cs with
    | '"' :: rest =>
      (match jparseStr rest with
       | none => none
       | some (k, rest2) =>
         match skipWs rest2 with
         | ':' :: rest3 =>
           (match jparseV fuel rest3 with
            | none => none
            | some (v, rest4) =>
              match skipWs rest4 with
              | ',' :: rest5 =>
                (match jparseMembers fuel rest5 with
                 | some (kvs, rest6) => some ((k, v) :: kvs, rest6)
                 | none => none)
              | '}' :: rest5 => some ([(k, v)], rest5)
              | _ => none)
         | _ => none)
    | _ => none

end

/-- Model of `JSON.parse` on a whole string: one value with only
whitespace around it; anything else is a parse error. -/
def jparse (s : String) : Option JSVal :=
  match jparseV (2 * s.length + 4) s.toList with
  | some (v, rest) => if (skipWs rest).isEmpty then some v else none
  | none => none

/-! ### Monitor helpers

Embeddings of the helper functions of the `RealTimeMonitor` React
component (source file `src/unnamed/part_001`). -/

/-- Embedding of the monitor's `pickNumber(a, b)`:
`const c = a ?? b; const n = Number(c); return Number.isFinite(n) ? n : null`.
The `number | null` return type becomes `Option ℚ`. -/
def pickNumber (a b : JSVal) : Option ℚ :=
  match toNumber (nullishOr a b) with
  | .fin q => some q
  | _ => none

/-- Embedding of the monitor's `safeParseJSON`: falsy input gives `null`;
strings go through `JSON.parse` with parse errors mapped to `null`; any
other value is returned unchanged. -/
def safeParseJSON (v : JSVal) : JSVal :=
  if truthy v then
    match v with
    | vstr s =>
      match jparse s with
      | some j => j
      | none => vnull
    | _ => v
  else vnull

/-- Embedding of the `created_ts` normalization inside `normalizeDealRow`:
a nullish value is kept as is, a number (including NaN) is kept as is, and
anything else is coerced with `Number`, mapping NaN to `null`. -/
def normCreatedTs (v : JSVal) : JSVal :=
  if isNullish v then v
  else
    match v with
    | vnum n => vnum n
    | _ =>
      match toNumber v with
      | .nan => vnull
      | n => vnum n

/-- Result type of the monitor's `normalizeDealRow`: the three fields that
go through `pickNumber` are `number | null` and become `Option ℚ`;
`deal_id` goes through `String(...)`; the remaining fields keep whatever
JavaScript value the defaulting expressions produce. -/
structure NormalizedDeal where
  deal_id : String
  status : JSVal
  mode : JSVal
  buyer : JSVal
  seller : JSVal
  sku : JSVal
  qty : Option ℚ
  unit_price : Option ℚ
  notional_ui : Option ℚ
  created_ts : JSVal
  created_iso : JSVal
  commitment_json : JSVal

/-- Embedding of the monitor's `normalizeDealRow(r)`. -/
def normalizeDealRow (r : JSVal) : NormalizedDeal :=
  let committed := safeParseJSON (getProp r "commitment_json")
  let qty := pickNumber (getProp r "qty") (chainGet committed "quantity")
  let unit := pickNumber (getProp r "unit_price") (chainGet committed "unit_price")
  let notional :=
    match pickNumber (getProp r "notional_ui") (chainGet committed "total_value") with
    | some q => some q
    | none =>
      match qty, unit with
      | some q, some u => some (q * u)
      | _, _ => none
  { deal_id := jsString (nullishOr (getProp r "deal_id") (nullishOr (getProp r "id") (vstr "")))
    status := nullishOr (getProp r "status") (vstr "-")
    mode := nullishOr (getProp r "mode") (nullishOr (getProp r "type") (vstr "sim"))
    buyer := nullishOr (getProp r "buyer") (nullishOr (getProp r "payer") (vstr ""))
    seller := nullishOr (getProp r "seller") (nullishOr (getProp r "vendor") (vstr ""))
    sku := nullishOr (getProp r "sku") (nullishOr (getProp r "product") (vstr ""))
    qty := qty
    unit_price := unit
    notional_ui := notional
    created_ts := normCreatedTs (getProp r "created_ts")
    created_iso := nullishOr (getProp r "created_iso") vnull
    commitment_json := nullishOr (getProp r "commitment_json") (nullishOr committed vnull) }

/-- Embedding of the monitor's `formatTags(ev)` before the final
`join(", ")`: push `"Mint"` when `is_mint` is truthy, otherwise push
`"Eligible"` or `"Leak"` by the truthiness of `eligible`; append a
tier-transition tag when both `tier_from` and `tier_to` are not
`undefined`. -/
def formatTagsList (ev : JSVal) : List String :=
  let isMint := truthy (getProp ev "is_mint")
  (if isMint then ["Mint"]
   else [if truthy (getProp ev "eligible") then "Eligible" else "Leak"]) ++
  (if !isUndef (getProp ev "tier_from") && !isUndef (getProp ev "tier_to") then
     ["T" ++ jsString (getProp ev "tier_from") ++ "→T" ++ jsString (getProp ev "tier_to")]
   else [])

/-- The monitor's `formatTags(ev)` including the final `join(", ")`. -/
def formatTags (ev : JSVal) : String :=
  String.intercalate ", " (formatTagsList ev)

/-- Uppercase hexadecimal digit. -/
def hexDigit (n : Nat) : Char :=
  if n < 10 then Nat.digitChar n else Char.ofNat (55 + n)

/-- Characters `encodeURIComponent` leaves unescaped. -/
def isUnreservedChar (c : Char) : Bool :=
  c.isAlpha || c.isDigit || c == '-' || c == '_' || c == '.' || c == '!' ||
    c == '~' || c == '*' || c == Char.ofNat 39 || c == '(' || c == ')'

/-- Model of `encodeURIComponent` on the ASCII fragment (multi-byte UTF-8
percent encoding is outside the modelled fragment; every string the
monitor encodes is ASCII). -/
def encodeURIComponent (s : String) : String :=
  String.join (s.toList.map fun c =>
    if isUnreservedChar c then String.singleton c
    else "%" ++ String.singleton (hexDigit (c.toNat / 16)) ++
      String.singleton (hexDigit (c.toNat % 16)))

/-- The monitor's initial status filter, `useState("admitted,settled")`. -/
def statusFilterDefault : String := "admitted,settled"

/-- The primary deals URL built by `pullDeals`. -/
def monDealsUrl (statusFilter : String) : String :=
  "/api/mon/deals?status=" ++ encodeURIComponent statusFilter ++ "&order=desc&limit=200"

/-- The fallback deals URL built by `pullDeals` when the primary response
is not ok. -/
def fallbackDealsUrl (statusFilter : String) : String :=
  "/api/deals?status=" ++ encodeURIComponent statusFilter ++ "&order=desc&limit=200"

/-- A fetch response as far as `pullDeals` inspects it: the `ok` flag and
the JSON body. -/
structure FetchResp where
  ok : Bool
  body : JSVal

/-- The payload `pullDeals` ends up using: the primary body when the
primary response is ok, otherwise the fallback body. -/
def pullDealsJson (primary fallback : FetchResp) : JSVal :=
  if primary.ok then primary.body else fallback.body

/-- Embedding of the payload-shape normalization in `pullDeals`:
`(Array.isArray(json) && json) || json?.deals || json?.items || []`.
An array (always truthy) is taken as is; otherwise the first truthy of
`json?.deals` and `json?.items`; otherwise the empty array. -/
def dealsRaw (json : JSVal) : JSVal :=
  if isArray json then json
  else if truthy (chainGet json "deals") then chainGet json "deals"
  else if truthy (chainGet json "items") then chainGet json "items"
  else varr []

/-- `raw.map(normalizeDealRow)`: mapping over a non-array throws a
`TypeError`, which the surrounding `catch` turns into the error banner;
modelled as `Except`. -/
def mapDealRows : JSVal → Except String (List NormalizedDeal)
  | varr l => .ok (l.map normalizeDealRow)
  | _ => .error "TypeError: raw.map is not a function"

/-- End-to-end value-level model of one `pullDeals` poll, as a function of
the two fetch responses. -/
def pullDealsResult (primary fallback : FetchResp) :
    Except String (List NormalizedDeal) :=
  mapDealRows (dealsRaw (pullDealsJson primary fallback))

/-! ### Relational store schema

Embedding of `migrations/001_negotiation.sql`.  NOT NULL columns become
non-optional fields; the integrity constraints the DDL declares become a
predicate on database states.  The migration's `CREATE INDEX` statements
(`idx_transactions_deal`, `idx_neglog_deal_turn`, `idx_deals_created`) are
plain non-unique indexes and therefore contribute no constraint. -/

/-- Row of the `deals` table. -/
structure DealsRow where
  deal_id : String
  status : String
  mode : String
  buyer : String
  seller : String
  sku : Option String
  qty : Option ℚ
  unit_price : Option ℚ
  vat_rate : Option ℚ
  notional_ui : Option ℚ
  commitment_json : Option String
  created_ts : Int
  finalized_ts : Option Int
deriving DecidableEq, Repr

/-- Row of the `negotiation_log` table. -/
structure NegotiationLogRow where
  id : Int
  deal_id : String
  turn : Int
  role : String
  subtype : Option String
  payload_json : String
  ts : Int
deriving DecidableEq, Repr

/-- A state of the persisted store, as far as migration 001 constrains
it. -/
structure DbState where
  deals : List DealsRow
  negotiation_log : List NegotiationLogRow
deriving DecidableEq, Repr

/-- Constraint of `deals`: `deal_id TEXT PRIMARY KEY` (uniqueness; NOT
NULL is already captured by the field types). -/
def dealsConstraints (ds : List DealsRow) : Prop :=
  ds.Pairwise (fun a b => a.deal_id ≠ b.deal_id)

/-- Constraints of `negotiation_log`: `id INTEGER PRIMARY KEY
AUTOINCREMENT` and `FOREIGN KEY(deal_id) REFERENCES deals(deal_id)`. -/
def neglogConstraints (ds : List DealsRow) (ls : List NegotiationLogRow) : Prop :=
  ls.Pairwise (fun a b => a.id ≠ b.id) ∧
    ∀ r ∈ ls, ∃ d ∈ ds, d.deal_id = r.deal_id

/-- All integrity constraints declared by the migration DDL. -/
def schemaOk (db : DbState) : Prop :=
  dealsConstraints db.deals ∧ neglogConstraints db.deals db.negotiation_log

/-- Per-deal uniqueness of turn numbers in the log (the property the spec
attributes to the store). -/
def turnsUniquePerDeal (ls : List NegotiationLogRow) : Prop :=
  ∀ r1 ∈ ls, ∀ r2 ∈ ls, r1.deal_id = r2.deal_id → r1.turn = r2.turn → r1 = r2

instance (ds : List DealsRow) : Decidable (dealsConstraints ds) := by
  unfold dealsConstraints; infer_instance

instance (ds : List DealsRow) (ls : List NegotiationLogRow) :
    Decidable (neglogConstraints ds ls) := by
  unfold neglogConstraints; infer_instance

instance (db : DbState) : Decidable (schemaOk db) := by
  unfold schemaOk; infer_instance

instance (ls : List NegotiationLogRow) : Decidable (turnsUniquePerDeal ls) := by
  unfold turnsUniquePerDeal; infer_instance

/-! ### Simulation engine

The macro-simulation backend is not part of the available source tree
(only its React caller is), so the engine is modelled from the
specification.  Section 9 of the spec leaves the exact closed-form
formulas open and requires only the monotonicity and boundary contracts
of section 4.1; the concrete formulas chosen here are documented on each
definition and satisfy those contracts. -/

/-- Modelled from the spec: the nested `venture` parameters of a
`ParameterSet`. -/
structure VentureParams where
  alpha0 : ℚ
  alpha1 : ℚ
  alpha2 : ℚ
  participants_active : ℚ
deriving DecidableEq, Repr

/-- Modelled from the spec: the nested `nk` parameters. -/
structure NkParams where
  x : ℚ
  kappa : ℚ
deriving DecidableEq, Repr

/-- Modelled from the spec: the nested `markov` parameters. -/
structure MarkovParams where
  use : Bool
  pi : List (List ℚ)
  ell : List ℚ
  s0 : List ℚ
deriving DecidableEq, Repr

/-- Modelled from the spec: a `ParameterSet` (simulation inputs). -/
structure ParameterSet where
  L : List ℚ
  omega : List ℚ
  lambda : ℚ
  tau : ℚ
  G : ℚ
  venture : VentureParams
  nk : NkParams
  markov : MarkovParams
deriving DecidableEq, Repr

/-- A structured validation error naming the offending field. -/
structure ValidationError where
  field : String
  message : String
deriving DecidableEq, Repr

/-- Modelled from the spec: `ParameterSet` validation (section 3
invariants and the section 4.1 / 7 error contract): length mismatch,
out-of-range values, non-stochastic Markov data are rejected with a
structured error identifying the offending field, before any
computation. -/
def validate (p : ParameterSet) : Except ValidationError Unit :=
  if p.L.length ≠ p.omega.length then
    .error ⟨"L", "length mismatch between L and omega"⟩
  else if ¬ (∀ x ∈ p.L, 0 ≤ x ∧ x ≤ 1) then
    .error ⟨"L", "leakage out of range"⟩
  else if ¬ (∀ x ∈ p.omega, 0 ≤ x ∧ x ≤ 1) then
    .error ⟨"omega", "spending weight out of range"⟩
  else if p.omega.sum ≠ 1 then
    .error ⟨"omega", "spending weights must sum to 1"⟩
  else if ¬ (0 ≤ p.lambda ∧ p.lambda ≤ 1) then
    .error ⟨"lambda", "re-spend propensity out of range"⟩
  else if ¬ (0 ≤ p.tau ∧ p.tau ≤ 1) then
    .error ⟨"tau", "VAT rate out of range"⟩
  else if ¬ (0 < p.G) then
    .error ⟨"G", "total stimulus must be positive"⟩
  else if ¬ (0 ≤ p.venture.alpha0 ∧ 0 ≤ p.venture.alpha1 ∧ 0 ≤ p.venture.alpha2 ∧
      0 ≤ p.venture.participants_active) then
    .error ⟨"venture", "venture coefficients must be non-negative"⟩
  else if ¬ (0 ≤ p.nk.x ∧ 0 ≤ p.nk.kappa) then
    .error ⟨"nk", "nk coefficients must be non-negative"⟩
  else if p.markov.use then
    if ¬ (p.markov.pi.length = p.markov.s0.length ∧
        (∀ row ∈ p.markov.pi, row.length = p.markov.s0.length) ∧
        p.markov.ell.length = p.markov.s0.length) then
      .error ⟨"markov.pi", "transition matrix dimensions mismatch"⟩
    else if ¬ (∀ row ∈ p.markov.pi, row.sum = 1 ∧ ∀ x ∈ row, 0 ≤ x) then
      .error ⟨"markov.pi", "transition matrix row not stochastic"⟩
    else if ¬ (p.markov.s0.sum = 1 ∧ ∀ x ∈ p.markov.s0, 0 ≤ x) then
      .error ⟨"markov.s0", "initial state is not a distribution"⟩
    else if ¬ (∀ x ∈ p.markov.ell, 0 ≤ x ∧ x ≤ 1) then
      .error ⟨"markov.ell", "per-state leakage out of range"⟩
    else .ok ()
  else .ok ()

/-- Modelled from the spec: venture sub-results. -/
structure VentureResult where
  D_i : List ℚ
  Pv_i : List ℚ
  V_i : List ℚ
  V : ℚ
deriving DecidableEq, Repr

/-- Modelled from the spec: NK price-impact sub-results. -/
structure NkResult where
  dPi_low : ℚ
  dPi_high : ℚ
deriving DecidableEq, Repr

/-- Modelled from the spec: Markov sub-results, present iff
`markov.use`. -/
structure MarkovResult where
  aVAT : ℚ
  aLEAK : ℚ
  k_eff : ℚ
deriving DecidableEq, Repr

/-- Modelled from the spec: a `SimulationResult`. -/
structure SimulationResult where
  k : ℚ
  k_i : List ℚ
  deltaM : ℚ
  vat : ℚ
  venture : VentureResult
  nk : NkResult
  markov : Option MarkovResult
deriving DecidableEq, Repr

/-- Modelled from the spec: the per-tier retained-spending multiplier
`k_i = f(L_i, tau, lambda)`.  Concrete formula (spec section 9 leaves it
to the implementation): one round of re-spending,
`k_i = 1 + lambda * (1 - L_i) * (1 - tau)`; it is increasing in
`(1 - L_i)` and `lambda`, decreasing in `tau`, and collapses to `1` at
`L_i = 1`. -/
def tierMultiplier (lam tau Li : ℚ) : ℚ :=
  1 + lam * (1 - Li) * (1 - tau)

/-- Bound a value to `[0, 1]`. -/
def clamp01 (q : ℚ) : ℚ := max 0 (min 1 q)

/-- Modelled from the spec: one propagation step of a distribution
through the transition matrix. -/
def distStep (piM : List (List ℚ)) (s : List ℚ) : List ℚ :=
  (List.range s.length).map fun j =>
    ((s.zip piM).map fun sr => sr.1 * sr.2.getD j 0).sum

/-- Modelled from the spec: iterate the transition matrix on the initial
distribution (fixed horizon standing in for the stationary/terminal
distribution; the spec leaves the horizon to the implementation). -/
def distIterate (piM : List (List ℚ)) (s : List ℚ) : Nat → List ℚ
  | 0 => s
  | n + 1 => distIterate piM (distStep piM s) n

/-- Modelled from the spec: the deterministic engine core over a
validated `ParameterSet` (section 4.1).  Aggregate `k = Σ omega_i * k_i`,
`deltaM = G * k`, `vat = tau` applied against the circulated base; the
venture, NK and Markov formulas are concrete choices satisfying the
section 4.1 contracts. -/
def computeCore (p : ParameterSet) : SimulationResult :=
  let ki := p.L.map (tierMultiplier p.lambda p.tau)
  let k := (List.zipWith (fun w x => w * x) p.omega ki).sum
  let deltaM := p.G * k
  let di := List.zipWith (fun w x => w * x) p.omega ki
  let alphaSum := p.venture.alpha0 + p.venture.alpha1 + p.venture.alpha2
  let pvi := di.map fun d => clamp01 (alphaSum * d)
  let vi := List.zipWith (fun pv w => pv * p.venture.participants_active * w) pvi p.omega
  let markovPart :=
    if p.markov.use then
      let sT := distIterate p.markov.pi p.markov.s0 64
      let aLEAK := (List.zipWith (fun a b => a * b) sT p.markov.ell).sum
      some { aVAT := p.tau * (1 - aLEAK)
             aLEAK := aLEAK
             k_eff := 1 + (k - 1) * (1 - aLEAK) }
    else none
  { k := k
    k_i := ki
    deltaM := deltaM
    vat := p.tau * deltaM
    venture := { D_i := di, Pv_i := pvi, V_i := vi, V := vi.sum }
    nk := { dPi_low := p.nk.kappa * p.nk.x, dPi_high := 2 * p.nk.kappa * p.nk.x }
    markov := markovPart }

/-- Modelled from the spec: the compute entry point — validation first,
then the pure engine core; a malformed `ParameterSet` is rejected before
any computation and no partial result is produced. -/
def compute (p : ParameterSet) : Except ValidationError SimulationResult :=
  match validate p with
  | .error e => .error e
  | .ok _ => .ok (computeCore p)

/-! ### Negotiation state machine, settlement ledger, monitor listing

The negotiation/settlement backend is not part of the available source
tree; these definitions are modelled from the specification (sections 4.2,
4.3, 4.4 and 7). -/

/-- Modelled from the spec: deal status enumeration. -/
inductive DealStatus where
  | draft
  | admitted
  | settled
  | aborted
  | failed
deriving DecidableEq, Repr

/-- `settled`, `aborted`, `failed` are the terminal statuses. -/
def DealStatus.isTerminal : DealStatus → Bool
  | .settled => true
  | .aborted => true
  | .failed => true
  | _ => false

/-- Modelled from the spec: deal mode enumeration. -/
inductive DealMode where
  | on_chain
  | sim
deriving DecidableEq, Repr

/-- Modelled from the spec: roles of a negotiation turn. -/
inductive Role where
  | buyer
  | seller
  | judge
  | tool
deriving DecidableEq, Repr

/-- Modelled from the spec: a persisted `NegotiationTurn` (the `turn`
number is assigned by the state machine, never by callers). -/
structure NegotiationTurn where
  turn : Nat
  role : Role
  subtype : String
  payload : String
  ts : Int
deriving DecidableEq, Repr

/-- Modelled from the spec: a `Deal` record together with its turn log. -/
structure Deal where
  deal_id : String
  status : DealStatus
  mode : DealMode
  buyer : String
  seller : String
  sku : Option String
  qty : Option ℚ
  unit_price : Option ℚ
  vat_rate : Option ℚ
  notional_ui : Option ℚ
  commitment_json : Option String
  created_ts : Int
  finalized_ts : Option Int
  turns : List NegotiationTurn
deriving DecidableEq, Repr

/-- Modelled from the spec (section 7 error taxonomy): typed conditions
returned by rejected negotiation operations. -/
inductive NegError where
  | validationError (field : String) (message : String)
  | stateConflict (message : String)
deriving DecidableEq, Repr

/-- Modelled from the spec: the actions that drive the state machine.
Non-transition dialogue turns carry a role/subtype/payload; the
settlement action carries the agreed commitment and the outcome of the
mode-specific confirmation step (a failed or timed-out confirmation is
`confirmed = false`). -/
inductive NegAction where
  | message (role : Role) (subtype : String) (payload : String)
  | admission (role : Role)
  | settlement (role : Role) (commitment : String) (confirmed : Bool)
  | abortDeal (role : Role)
deriving DecidableEq, Repr

/-- A turn-submission request: the action and its timestamp. -/
structure TurnReq where
  action : NegAction
  ts : Int
deriving DecidableEq, Repr

/-- Append a `NegotiationTurn` whose number is assigned by the machine:
one past the current log length (gapless, increasing, not supplied by the
caller). -/
def appendTurn (d : Deal) (role : Role) (subtype payload : String) (ts : Int) :
    List NegotiationTurn :=
  d.turns ++ [{ turn := d.turns.length + 1, role := role, subtype := subtype,
                payload := payload, ts := ts }]

/-- Modelled from the spec: one serialized turn submission of the
`NegotiationStateMachine` (section 4.2).  Terminal states reject every
further call with an "already finalized" StateConflict; `draft →
admitted` requires a structurally complete offer (buyer, seller, sku,
qty, unit_price) and stamps `notional = qty * unit_price`; `admitted →
settled` requires the commitment and a successful confirmation, a failed
confirmation drives the deal to `failed`; `draft|admitted → aborted` is
always allowed; every transition appends exactly one turn. -/
def submitTurn (d : Deal) (req : TurnReq) : Except NegError Deal :=
  if d.status.isTerminal then .error (.stateConflict "already finalized")
  else
    match req.action with
    | .message role subtype payload =>
      .ok { d with turns := appendTurn d role subtype payload req.ts }
    | .admission role =>
      if d.status = .draft then
        match d.sku, d.qty, d.unit_price with
        | some _, some q, some u =>
          if d.buyer ≠ "" ∧ d.seller ≠ "" then
            .ok { d with status := .admitted, notional_ui := some (q * u), turns := appendTurn d role "admit" "admission" req.ts }
          else .error (.validationError "buyer" "admission requires buyer and seller")
        | none, _, _ => .error (.validationError "sku" "admission requires sku")
        | _, none, _ => .error (.validationError "qty" "admission requires qty")
        | _, _, none => .error (.validationError "unit_price" "admission requires unit_price")
      else .error (.stateConflict "admission requires draft status")
    | .settlement role commitment confirmed =>
      if d.status = .admitted then
        if confirmed then
          .ok { d with status := .settled, commitment_json := some commitment, finalized_ts := some req.ts, turns := appendTurn d role "accept" commitment req.ts }
        else
          .ok { d with status := .failed, finalized_ts := some req.ts, turns := appendTurn d role "check" "confirmation failed" req.ts }
      else .error (.stateConflict "settlement requires admitted status")
    | .abortDeal role =>
      .ok { d with status := .aborted, finalized_ts := some req.ts, turns := appendTurn d role "abort" "aborted" req.ts }

/-- The store semantics of a turn submission: a rejected operation leaves
the persisted deal unchanged. -/
def storeStep (d : Deal) (req : TurnReq) : Deal :=
  match submitTurn d req with
  | .ok d2 => d2
  | .error _ => d

/-- The gapless/increasing turn-number invariant: the turn numbers of a
deal read `1, 2, ..., n` in log order. -/
def turnsGapless (d : Deal) : Prop :=
  d.turns.map NegotiationTurn.turn = List.range' 1 d.turns.length

/-- Modelled from the spec: a `TransactionEvent` produced by the
settlement subsystem (`from`/`to` are `fromAddr`/`toAddr` here because
`from` is reserved in Lean). -/
structure TransactionEvent where
  txid : String
  fromAddr : String
  toAddr : String
  amount : ℚ
  ts : Int
  deal_id : Option String
  tags : List String
  tier_from : Option Nat
  tier_to : Option Nat
deriving DecidableEq, Repr

/-- Modelled from the spec: `SettlementLedger.recordTransaction`
(section 4.3) — only callable for deals in `admitted` or `settled` state,
and idempotent per `txid`: an already-seen `txid` is a no-op, not a
duplicate insertion.  (The notional-coverage trigger of the `settled`
transition goes through the state machine above and is orthogonal to the
recorded ledger list modelled here.) -/
def recordTransaction (d : Deal) (ledger : List TransactionEvent)
    (ev : TransactionEvent) : Except NegError (List TransactionEvent) :=
  if d.status = .admitted ∨ d.status = .settled then
    .ok (if ledger.any (fun e => e.txid == ev.txid) then ledger else ledger ++ [ev])
  else .error (.stateConflict "transactions are only recorded for admitted or settled deals")

/-- Number of stored events carrying a given `txid`. -/
def countTxid (txid : String) (ledger : List TransactionEvent) : Nat :=
  (ledger.filter (fun e => e.txid == txid)).length

/-- Split a character list at commas (structural helper for the status
filter). -/
def splitCommaAux : List Char → List Char → List String
  | [], acc => [String.mk acc.reverse]
  | c :: rest, acc =>
    if c = ',' then String.mk acc.reverse :: splitCommaAux rest []
    else splitCommaAux rest (c :: acc)

/-- Split a comma-separated status filter into the status set it
denotes. -/
def parseStatusFilter (s : String) : List String := splitCommaAux s.toList []

/-- Insert a deals row into a list kept in descending `created_ts`
order. -/
def insertByCreatedDesc (d : DealsRow) : List DealsRow → List DealsRow
  | [] => [d]
  | e :: rest =>
    if e.created_ts ≤ d.created_ts then d :: e :: rest
    else e :: insertByCreatedDesc d rest

/-- Sort deals rows by `created_ts` descending (insertion sort). -/
def sortByCreatedDesc : List DealsRow → List DealsRow
  | [] => []
  | d :: rest => insertByCreatedDesc d (sortByCreatedDesc rest)

/-- Modelled from the spec: the `MonitorFeed` deals listing (section
4.4) — filter by the status set, order by `created_ts` descending, and
apply the pagination limit. -/
def listDeals (ds : List DealsRow) (statuses : List String) (limit : Nat) :
    List DealsRow :=
  (sortByCreatedDesc (ds.filter (fun d => statuses.contains d.status))).take limit

/-- Modelled from the spec: the serialization of a deal record into the
JSON row served to the monitor (SQL column names; absent values are
`null`). -/
def statusText : DealStatus → String
  | .draft => "draft"
  | .admitted => "admitted"
  | .settled => "settled"
  | .aborted => "aborted"
  | .failed => "failed"

/-- Modelled from the spec: JSON encoding of an optional rational
column. -/
def numOrNull : Option ℚ → JSVal
  | some q => vnum (.fin q)
  | none => vnull

/-- Modelled from the spec: JSON encoding of an optional text column. -/
def strOrNull : Option String → JSVal
  | some s => vstr s
  | none => vnull

/-- Modelled from the spec: the monitor-facing JSON row of a deal
record. -/
def dealToRow (d : Deal) : JSVal :=
  vobj [("deal_id", vstr d.deal_id),
        ("status", vstr (statusText d.status)),
        ("mode", vstr (match d.mode with | .on_chain => "on_chain" | .sim => "sim")),
        ("buyer", vstr d.buyer),
        ("seller", vstr d.seller),
        ("sku", strOrNull d.sku),
        ("qty", numOrNull d.qty),
        ("unit_price", numOrNull d.unit_price),
        ("vat_rate", numOrNull d.vat_rate),
        ("notional_ui", numOrNull d.notional_ui),
        ("commitment_json", strOrNull d.commitment_json),
        ("created_ts", vnum (.fin d.created_ts)),
        ("finalized_ts", match d.finalized_ts with
          | some t => vnum (.fin t)
          | none => vnull)]

/-! ### Example inputs used by witnesses and counterexamples -/

/-- A structurally complete draft deal. -/
def exDraft : Deal :=
  { deal_id := "D1", status := .draft, mode := .sim, buyer := "B", seller := "S",
    sku := some "widget", qty := some 10, unit_price := some 5, vat_rate := none,
    notional_ui := none, commitment_json := none, created_ts := 0,
    finalized_ts := none, turns := [] }

/-- The same deal in `settled` (terminal) state. -/
def exSettled : Deal := { exDraft with status := .settled }

/-- The same deal in `admitted` state. -/
def exAdmitted : Deal := { exDraft with status := .admitted }

/-- A concrete turn-submission request. -/
def exReq : TurnReq := ⟨.message .buyer "proposal" "offer", 7⟩

/-- A concrete transaction event. -/
def exEv : TransactionEvent := ⟨"tx1", "A", "B", 5, 0, some "D1", [], none, none⟩

/-! ### C2 — terminal states are final -/

/-- C2: for every deal whose status is terminal (settled, aborted or
failed), any further turn submission fails with the "already finalized"
StateConflict and the persisted deal state (status, fields, turn log) is
unchanged; and no successful transition ever starts from a terminal
state. -/
theorem C2_terminal_states_final (d : Deal) (req : TurnReq) :
    (d.status.isTerminal = true →
      submitTurn d req = .error (.stateConflict "already finalized") ∧
      storeStep d req = d) ∧
    (∀ d2 : Deal, submitTurn d req = .ok d2 → d.status.isTerminal = false) := by
  constructor
  · intro h
    constructor
    · simp [submitTurn, h]
    · simp [storeStep, submitTurn, h]
  · intro d2 hok
    cases hterm : d.status.isTerminal with
    | false => rfl
    | true => simp [submitTurn, hterm] at hok

/-- Witness for C2 at a concrete settled deal. -/
theorem C2_witness :
    submitTurn exSettled exReq = .error (.stateConflict "already finalized") ∧
    storeStep exSettled exReq = exSettled :=
  (C2_terminal_states_final exSettled exReq).1 rfl

/-! ### C3 — transaction recording is idempotent per txid -/

/-- C3: for a deal in `admitted` or `settled` state and a txid not yet in
the ledger, recording a transaction stores it once, and recording the
same txid a second time is a no-op that leaves exactly one stored
`TransactionEvent` for that txid, never two. -/
theorem C3_record_idempotent (d : Deal) (L : List TransactionEvent)
    (ev : TransactionEvent)
    (hst : d.status = .admitted ∨ d.status = .settled)
    (hfresh : countTxid ev.txid L = 0) :
    recordTransaction d L ev = .ok (L ++ [ev]) ∧
    recordTransaction d (L ++ [ev]) ev = .ok (L ++ [ev]) ∧
    countTxid ev.txid (L ++ [ev]) = 1 := by
  have hnone : ∀ e ∈ L, (e.txid == ev.txid) = false := by
    intro e he
    have hfil : L.filter (fun e => e.txid == ev.txid) = [] :=
      List.length_eq_zero.mp hfresh
    have := List.filter_eq_nil_iff.mp hfil e he
    simpa using this
  have hany : L.any (fun e => e.txid == ev.txid) = false := by
    rw [List.any_eq_false]
    intro e he
    simp [hnone e he]
  refine ⟨?_, ?_, ?_⟩
  · simp [recordTransaction, hst, hany]
  · have hany2 : (L ++ [ev]).any (fun e => e.txid == ev.txid) = true := by
      simp
    simp [recordTransaction, hst, hany2]
  · unfold countTxid
    rw [List.filter_append]
    have : List.filter (fun e => e.txid == ev.txid) L = [] :=
      List.length_eq_zero.mp hfresh
    simp [this]

/-- Witness for C3 at a concrete admitted deal and empty ledger. -/
theorem C3_witness :
    recordTransaction exAdmitted [] exEv = .ok [exEv] ∧
    recordTransaction exAdmitted [exEv] exEv = .ok [exEv] ∧
    countTxid exEv.txid [exEv] = 1 := by
  have h := C3_record_idempotent exAdmitted [] exEv (Or.inl rfl) rfl
  simpa using h


/-! ### C5 — what the persisted store does and does not enforce

`deals.deal_id` is a PRIMARY KEY, but `idx_neglog_deal_turn` is created
with `CREATE INDEX`, not `CREATE UNIQUE INDEX`: the store itself accepts
two turn rows of one deal with the same turn number. -/

/-- A database state satisfying every constraint of the migration DDL in
which one deal has two log rows with the same turn number. -/
def exDupTurnDb : DbState :=
  { deals := [{ deal_id := "D1", status := "admitted", mode := "sim", buyer := "b",
                seller := "s", sku := none, qty := none, unit_price := none,
                vat_rate := none, notional_ui := none, commitment_json := none,
                created_ts := 0, finalized_ts := none }]
    negotiation_log :=
      [{ id := 1, deal_id := "D1", turn := 1, role := "buyer", subtype := none,
         payload_json := "p", ts := 0 },
       { id := 2, deal_id := "D1", turn := 1, role := "seller", subtype := none,
         payload_json := "q", ts := 1 }] }

set_option maxHeartbeats 1000000 in
/-- Counterexample to C5 as stated: a store state that satisfies every
constraint declared by `migrations/001_negotiation.sql` (deal_id primary
key, log id primary key, foreign key) yet contains two `NegotiationTurn`
rows of the same deal with the same turn number — the store does not
enforce per-deal turn uniqueness. -/
theorem C5_counterexample :
    schemaOk exDupTurnDb ∧ ¬ turnsUniquePerDeal exDupTurnDb.negotiation_log := by
  decide

/-- One step of list-membership reasoning for the primary-key property:
pairwise-distinct keys make the key functional. -/
theorem key_functional {α β : Type} (key : α → β) :
    ∀ l : List α, l.Pairwise (fun a b => key a ≠ key b) →
      ∀ r1 ∈ l, ∀ r2 ∈ l, key r1 = key r2 → r1 = r2 := by
  intro l hl
  induction hl with
  | nil => intro r1 h1; cases h1
  | cons hhead _ ih =>
    intro r1 h1 r2 h2 hk
    rcases List.mem_cons.mp h1 with h1 | h1 <;>
      rcases List.mem_cons.mp h2 with h2 | h2
    · rw [h1, h2]
    · exact absurd (h1 ▸ hk) (hhead r2 h2)
    · exact absurd (h2 ▸ hk).symm (hhead r1 h1)
    · exact ih r1 h1 r2 h2 hk

/-- Appending the machine-assigned next turn preserves the gapless
`1..n` shape of the turn-number sequence. -/
theorem turnsGapless_append (d : Deal) (role : Role) (subtype payload : String)
    (ts : Int) (hg : turnsGapless d) :
    (appendTurn d role subtype payload ts).map NegotiationTurn.turn =
      List.range' 1 (appendTurn d role subtype payload ts).length := by
  unfold appendTurn
  rw [List.map_append, List.length_append]
  unfold turnsGapless at hg
  rw [hg]
  simp [List.range'_concat, Nat.add_comm]

set_option maxHeartbeats 1000000 in
/-- C5 (amended): the store enforces that `deal_id` is a key of the
`deals` table (any two rows of a schema-satisfying state with the same
`deal_id` are the same row); per-deal turn numbers are merely indexed,
not constrained, by the store (see the counterexample), and their
gapless/increasing uniqueness is instead established by the state
machine, which assigns each appended turn the next number. -/
theorem C5_amended_store_and_machine :
    (∀ db : DbState, schemaOk db →
      ∀ r1 ∈ db.deals, ∀ r2 ∈ db.deals, r1.deal_id = r2.deal_id → r1 = r2) ∧
    (∀ (d : Deal) (req : TurnReq) (d2 : Deal),
      submitTurn d req = .ok d2 → turnsGapless d → turnsGapless d2) := by
  constructor
  · intro db hdb
    exact key_functional DealsRow.deal_id db.deals hdb.1
  · intro d req d2 hok hg
    unfold submitTurn at hok
    split at hok
    · exact absurd hok (by simp)
    · split at hok
      · cases hok
        exact turnsGapless_append d _ _ _ _ hg
      · split at hok
        · split at hok
          · split at hok
            · cases hok
              exact turnsGapless_append d _ _ _ _ hg
            · exact absurd hok (by simp)
          · exact absurd hok (by simp)
          · exact absurd hok (by simp)
          · exact absurd hok (by simp)
        · exact absurd hok (by simp)
      · split at hok
        · split at hok
          · cases hok
            exact turnsGapless_append d _ _ _ _ hg
          · cases hok
            exact turnsGapless_append d _ _ _ _ hg
        · exact absurd hok (by simp)
      · cases hok
        exact turnsGapless_append d _ _ _ _ hg

/-- Witness for C5 (amended) at a concrete store state and a concrete
machine step. -/
theorem C5_amended_witness :
    (∀ r1 ∈ exDupTurnDb.deals, ∀ r2 ∈ exDupTurnDb.deals,
      r1.deal_id = r2.deal_id → r1 = r2) ∧ turnsGapless (storeStep exDraft exReq) := by
  constructor
  · exact C5_amended_store_and_machine.1 exDupTurnDb (by decide)
  · exact C5_amended_store_and_machine.2 exDraft exReq _ rfl (by simp [turnsGapless, exDraft])

/-! ### C6 — default status filter and listing order -/

/-- Membership in an insertion step of the descending sort. -/
theorem mem_insertByCreatedDesc (d x : DealsRow) (l : List DealsRow) :
    x ∈ insertByCreatedDesc d l ↔ x = d ∨ x ∈ l := by
  induction l with
  | nil => simp [insertByCreatedDesc]
  | cons e rest ih =>
    unfold insertByCreatedDesc
    split
    · simp
    · simp only [List.mem_cons, ih]
      tauto

/-- Inserting into a list sorted by descending `created_ts` keeps it
sorted. -/
theorem pairwise_insertByCreatedDesc (d : DealsRow) (l : List DealsRow)
    (h : l.Pairwise (fun a b => b.created_ts ≤ a.created_ts)) :
    (insertByCreatedDesc d l).Pairwise (fun a b => b.created_ts ≤ a.created_ts) := by
  induction l with
  | nil => simp [insertByCreatedDesc]
  | cons e rest ih =>
    have he := List.pairwise_cons.mp h
    unfold insertByCreatedDesc
    split
    · rename_i hle
      refine List.pairwise_cons.mpr ⟨?_, h⟩
      intro x hx
      rcases List.mem_cons.mp hx with hx | hx
      · rw [hx]; exact hle
      · exact le_trans (he.1 x hx) hle
    · rename_i hgt
      refine List.pairwise_cons.mpr ⟨?_, ih he.2⟩
      intro x hx
      rcases (mem_insertByCreatedDesc d x rest).mp hx with hx | hx
      · rw [hx]; exact le_of_not_le hgt
      · exact he.1 x hx

/-- The descending sort is sorted and preserves membership. -/
theorem sortByCreatedDesc_spec (l : List DealsRow) :
    (sortByCreatedDesc l).Pairwise (fun a b => b.created_ts ≤ a.created_ts) ∧
    ∀ x, x ∈ sortByCreatedDesc l ↔ x ∈ l := by
  induction l with
  | nil => simp [sortByCreatedDesc]
  | cons d rest ih =>
    constructor
    · exact pairwise_insertByCreatedDesc d _ ih.1
    · intro x
      rw [sortByCreatedDesc, mem_insertByCreatedDesc]
      simp [ih.2 x]

set_option maxHeartbeats 1000000 in
/-- C6: the monitor's deals listing defaults its status filter to the
comma-separated set `admitted,settled` (both in the initial React state
and in the request URL it produces), and the listing itself returns only
deals of the filtered statuses, ordered by `created_ts` descending, under
the pagination limit. -/
theorem C6_deals_listing :
    parseStatusFilter statusFilterDefault = ["admitted", "settled"] ∧
    monDealsUrl statusFilterDefault =
      "/api/mon/deals?status=admitted%2Csettled&order=desc&limit=200" ∧
    ∀ (ds : List DealsRow) (limit : Nat),
      (listDeals ds (parseStatusFilter statusFilterDefault) limit).Pairwise
        (fun a b => b.created_ts ≤ a.created_ts) ∧
      (listDeals ds (parseStatusFilter statusFilterDefault) limit).length ≤ limit ∧
      ∀ d ∈ listDeals ds (parseStatusFilter statusFilterDefault) limit,
        d.status = "admitted" ∨ d.status = "settled" := by
  have hpf : parseStatusFilter statusFilterDefault = ["admitted", "settled"] := by
    decide
  refine ⟨hpf, by decide, ?_⟩
  intro ds limit
  refine ⟨?_, ?_, ?_⟩
  · exact ((sortByCreatedDesc_spec _).1).sublist (List.take_sublist _ _)
  · exact List.length_take_le _ _
  · intro d hd
    have hmem : d ∈ sortByCreatedDesc (ds.filter
        (fun d => (parseStatusFilter statusFilterDefault).contains d.status)) :=
      List.mem_of_mem_take hd
    have hin := ((sortByCreatedDesc_spec _).2 d).mp hmem
    have hfil := List.mem_filter.mp hin
    have hc := hfil.2
    rw [hpf] at hc
    simpa using hc

/-- Example deals rows for the listing witness. -/
def exRows : List DealsRow :=
  [{ deal_id := "A", status := "admitted", mode := "sim", buyer := "b", seller := "s",
     sku := none, qty := none, unit_price := none, vat_rate := none, notional_ui := none,
     commitment_json := none, created_ts := 5, finalized_ts := none },
   { deal_id := "B", status := "settled", mode := "sim", buyer := "b", seller := "s",
     sku := none, qty := none, unit_price := none, vat_rate := none, notional_ui := none,
     commitment_json := none, created_ts := 9, finalized_ts := none },
   { deal_id := "C", status := "draft", mode := "sim", buyer := "b", seller := "s",
     sku := none, qty := none, unit_price := none, vat_rate := none, notional_ui := none,
     commitment_json := none, created_ts := 7, finalized_ts := none }]

/-- Witness for C6 at a concrete deals table. -/
theorem C6_witness :
    (listDeals exRows (parseStatusFilter statusFilterDefault) 200).Pairwise
      (fun a b => b.created_ts ≤ a.created_ts) ∧
    ∀ d ∈ listDeals exRows (parseStatusFilter statusFilterDefault) 200,
      d.status = "admitted" ∨ d.status = "settled" :=
  ⟨(C6_deals_listing.2.2 exRows 200).1, (C6_deals_listing.2.2 exRows 200).2.2⟩

/-! ### C7 — notional consistency between deal record and monitor row -/

/-- C7: a deal admitted with `qty = 10` and `unit_price = 5` and later
settled with a matching commitment carries `notional_ui = 50 = qty *
unit_price` both in the stored deal record and in the monitor
projection's normalized row. -/
theorem C7_notional_consistent (d0 : Deal) (r1 r2 : Role) (sk c : String)
    (ts1 ts2 : Int)
    (hdraft : d0.status = .draft) (hq : d0.qty = some 10) (hu : d0.unit_price = some 5)
    (hsk : d0.sku = some sk) (hb : d0.buyer ≠ "") (hs : d0.seller ≠ "")
    (_hmatch : chainGet (safeParseJSON (vstr c)) "total_value" = vnum (.fin 50)) :
    ∃ d1 d2 : Deal,
      submitTurn d0 ⟨.admission r1, ts1⟩ = .ok d1 ∧
      submitTurn d1 ⟨.settlement r2 c true, ts2⟩ = .ok d2 ∧
      d2.notional_ui = some 50 ∧
      d2.commitment_json = some c ∧
      (normalizeDealRow (dealToRow d2)).notional_ui = some 50 := by
  have hterm : d0.status.isTerminal = false := by rw [hdraft]; rfl
  refine ⟨{ d0 with status := .admitted, notional_ui := some ((10 : ℚ) * 5), turns := appendTurn d0 r1 "admit" "admission" ts1 }, ?_⟩
  refine ⟨{ d0 with status := .settled, notional_ui := some ((10 : ℚ) * 5), commitment_json := some c, finalized_ts := some ts2, turns := appendTurn { d0 with status := .admitted, notional_ui := some ((10 : ℚ) * 5), turns := appendTurn d0 r1 "admit" "admission" ts1 } r2 "accept" c ts2 }, ?_, ?_, ?_, ?_, ?_⟩
  · rw [submitTurn, hterm]
    simp [hdraft, hsk, hq, hu, hb, hs]
  · rfl
  · show some ((10 : ℚ) * 5) = some 50
    norm_num
  · rfl
  · show some ((10 : ℚ) * 5) = some 50
    norm_num

set_option maxHeartbeats 2000000 in
/-- Witness for C7 at a concrete draft deal and a concrete matching
commitment. -/
theorem C7_witness :
    ∃ d1 d2 : Deal,
      submitTurn exDraft ⟨.admission .judge, 3⟩ = .ok d1 ∧
      submitTurn d1 ⟨.settlement .buyer
        "\x7b\"quantity\": 10, \"unit_price\": 5, \"total_value\": 50\x7d" true, 9⟩ = .ok d2 ∧
      d2.notional_ui = some 50 ∧
      d2.commitment_json = some "\x7b\"quantity\": 10, \"unit_price\": 5, \"total_value\": 50\x7d" ∧
      (normalizeDealRow (dealToRow d2)).notional_ui = some 50 :=
  C7_notional_consistent exDraft .judge .buyer "widget"
    "\x7b\"quantity\": 10, \"unit_price\": 5, \"total_value\": 50\x7d" 3 9
    rfl rfl rfl rfl (by decide) (by decide) rfl

/-! ### C8 — notional normalization

As stated, the claim fails twice on the code: a numeric `notional_ui`
column is used even when `qty`/`unit_price` are absent, and a literal
`null` in both `notional_ui` and the commitment's `total_value` coerces
through JavaScript `Number(null) = 0` to a notional of `0`, overriding
`qty * unit_price`. -/

/-- A raw deal row with `notional_ui: null`, a commitment whose
`total_value` is `null`, `qty = 2` and `unit_price = 3`. -/
def exNullNotionalRow : JSVal :=
  vobj [("notional_ui", vnull),
        ("commitment_json", vobj [("total_value", vnull)]),
        ("qty", vnum (.fin 2)),
        ("unit_price", vnum (.fin 3))]

/-- Counterexample to C8 as stated: in this row both notional sources are
non-numeric (`null`), and `qty`, `unit_price` normalize to the finite
numbers `2` and `3`, yet the normalized `notional_ui` is `0`, not
`qty * unit_price = 6` — because `a ?? b` does not skip a literal `null`
pair and `Number(null) = 0` passes the `isFinite` guard. -/
theorem C8_counterexample :
    isNullish (getProp exNullNotionalRow "notional_ui") = true ∧
    isNullish (chainGet (safeParseJSON (getProp exNullNotionalRow "commitment_json"))
      "total_value") = true ∧
    (normalizeDealRow exNullNotionalRow).qty = some 2 ∧
    (normalizeDealRow exNullNotionalRow).unit_price = some 3 ∧
    (normalizeDealRow exNullNotionalRow).notional_ui = some 0 ∧
    (0 : ℚ) ≠ 2 * 3 := by
  refine ⟨rfl, rfl, rfl, rfl, rfl, by norm_num⟩

/-- C8 (amended): for every raw deal row, when the notional sources
normalize to `null` through `pickNumber` (rather than merely being
absent or non-numeric: a literal `null` with a present `null` partner
coerces to `0`), the fallback applies — the normalized `notional_ui` is
`qty * unit_price` when both normalize to finite numbers and `null` when
either normalizes to `null`; and `pickNumber` only ever returns a finite
number or `null`, never NaN, so the normalization cannot yield NaN. -/
theorem C8_notional_normalization (r : JSVal)
    (hno : pickNumber (getProp r "notional_ui")
      (chainGet (safeParseJSON (getProp r "commitment_json")) "total_value") = none) :
    (∀ q u : ℚ, (normalizeDealRow r).qty = some q →
      (normalizeDealRow r).unit_price = some u →
      (normalizeDealRow r).notional_ui = some (q * u)) ∧
    ((normalizeDealRow r).qty = none ∨ (normalizeDealRow r).unit_price = none →
      (normalizeDealRow r).notional_ui = none) ∧
    (∀ a b : JSVal, ∀ q : ℚ, pickNumber a b = some q →
      toNumber (nullishOr a b) = .fin q ∧ isFiniteNum (toNumber (nullishOr a b)) = true) := by
  refine ⟨?_, ?_, ?_⟩
  · intro q u hq hu
    simp only [normalizeDealRow, hno] at hq hu ⊢
    rw [hq, hu]
  · intro hor
    simp only [normalizeDealRow, hno] at hor ⊢
    rcases hor with h | h
    · rw [h]
    · rw [h]
      cases pickNumber (getProp r "qty")
        (chainGet (safeParseJSON (getProp r "commitment_json")) "quantity") <;> rfl
  · intro a b q hq
    unfold pickNumber at hq
    cases htn : toNumber (nullishOr a b) <;> rw [htn] at hq <;>
      simp_all [isFiniteNum]

/-- A raw deal row with only `qty` and `unit_price`. -/
def exQtyRow : JSVal := vobj [("qty", vnum (.fin 4)), ("unit_price", vnum (.fin 5))]

/-- Witness for C8 (amended) at a concrete row: absent notional sources
and finite `qty`/`unit_price` produce their product. -/
theorem C8_witness : (normalizeDealRow exQtyRow).notional_ui = some 20 := by
  have h := (C8_notional_normalization exQtyRow rfl).1 4 5 rfl rfl
  rw [h]; norm_num

/-! ### C9 — transaction tags -/

/-- A tier-transition tag starts with the character `T`. -/
theorem tierPrefix_head (x : String) : ("T" ++ x).data.head? = some 'T' := by
  cases x; rfl

/-- A tier-transition tag is none of the three eligibility tags. -/
theorem tierTag_ne (x : String) :
    "T" ++ x ≠ "Mint" ∧ "T" ++ x ≠ "Eligible" ∧ "T" ++ x ≠ "Leak" := by
  refine ⟨?_, ?_, ?_⟩ <;> intro h <;>
    (have hh := tierPrefix_head x; rw [h] at hh; exact absurd hh (by decide))

/-- Boolean-equality forms of `tierTag_ne` in the left-associated shape
the tag is built in, both comparison directions. -/
theorem tierTag_beq_false (a b : String) :
    (("T" ++ a ++ "→T" ++ b) == "Mint") = false ∧
    (("T" ++ a ++ "→T" ++ b) == "Eligible") = false ∧
    (("T" ++ a ++ "→T" ++ b) == "Leak") = false ∧
    ("Mint" == ("T" ++ a ++ "→T" ++ b)) = false ∧
    ("Eligible" == ("T" ++ a ++ "→T" ++ b)) = false ∧
    ("Leak" == ("T" ++ a ++ "→T" ++ b)) = false := by
  rw [String.append_assoc, String.append_assoc]
  have h := tierTag_ne (a ++ ("→T" ++ b))
  refine ⟨?_, ?_, ?_, ?_, ?_, ?_⟩
  · exact beq_eq_false_iff_ne.mpr h.1
  · exact beq_eq_false_iff_ne.mpr h.2.1
  · exact beq_eq_false_iff_ne.mpr h.2.2
  · exact beq_eq_false_iff_ne.mpr (Ne.symm h.1)
  · exact beq_eq_false_iff_ne.mpr (Ne.symm h.2.1)
  · exact beq_eq_false_iff_ne.mpr (Ne.symm h.2.2)

/-- Propositional-equality forms of `tierTag_ne`, reversed direction. -/
theorem tierTag_eq_false (a b : String) :
    ("Mint" = "T" ++ a ++ "→T" ++ b) = False ∧
    ("Eligible" = "T" ++ a ++ "→T" ++ b) = False ∧
    ("Leak" = "T" ++ a ++ "→T" ++ b) = False := by
  rw [String.append_assoc, String.append_assoc]
  have h := tierTag_ne (a ++ ("→T" ++ b))
  exact ⟨eq_false (fun hh => h.1 hh.symm), eq_false (fun hh => h.2.1 hh.symm),
    eq_false (fun hh => h.2.2 hh.symm)⟩

/-- C9: every formatted tag list carries exactly one of `Mint`,
`Eligible`, `Leak`: `Mint` iff `is_mint` is truthy, otherwise `Eligible`
iff `eligible` is truthy and `Leak` otherwise; and a tier-transition tag
is appended (making the list two tags long) iff both `tier_from` and
`tier_to` are defined. -/
theorem C9_format_tags (ev : JSVal) :
    ((formatTagsList ev).filter
      (fun t => t == "Mint" || t == "Eligible" || t == "Leak")).length = 1 ∧
    ((formatTagsList ev).contains "Mint" = truthy (getProp ev "is_mint")) ∧
    (truthy (getProp ev "is_mint") = false →
      (formatTagsList ev).contains "Eligible" = truthy (getProp ev "eligible") ∧
      (formatTagsList ev).contains "Leak" = !truthy (getProp ev "eligible")) ∧
    ((formatTagsList ev).length = 2 ↔
      isUndef (getProp ev "tier_from") = false ∧
      isUndef (getProp ev "tier_to") = false) ∧
    ((formatTagsList ev).length = 1 ∨ (formatTagsList ev).length = 2) := by
  cases hm : truthy (getProp ev "is_mint") <;>
    cases he : truthy (getProp ev "eligible") <;>
    cases hf : isUndef (getProp ev "tier_from") <;>
    cases ht : isUndef (getProp ev "tier_to") <;>
    simp [formatTagsList, hm, he, hf, ht, List.contains, tierTag_beq_false, tierTag_eq_false]

/-- A concrete transaction event row for the tags witness. -/
def exTagEv : JSVal :=
  vobj [("eligible", vbool true), ("tier_from", vnum (.fin 1)), ("tier_to", vnum (.fin 2))]

/-- Witness for C9 at a concrete event: a non-mint eligible event with a
tier transition gets the `Eligible` tag and a second (tier) tag. -/
theorem C9_witness :
    (formatTagsList exTagEv).contains "Eligible" = true ∧
    (formatTagsList exTagEv).length = 2 := by
  have h := C9_format_tags exTagEv
  refine ⟨?_, (h.2.2.2.1).mpr ⟨rfl, rfl⟩⟩
  rw [(h.2.2.1 rfl).1]; rfl

/-! ### C10 — deals poll fallback and payload shapes

As stated, the claim fails on one payload shape: an object whose `deals`
field is truthy but not an array is neither used as a payload nor turned
into an empty list — `raw.map` throws a `TypeError` that the surrounding
`catch` reports as a failed poll. -/

/-- Counterexample to C10 as stated: the payload is an object with a
`deals` field, yet the poll neither accepts it nor yields an empty list —
it fails with the caught `TypeError`, because the field is a number, not
an array. -/
theorem C10_counterexample :
    truthy (chainGet (vobj [("deals", vnum (.fin 5))]) "deals") = true ∧
    pullDealsResult ⟨true, vobj [("deals", vnum (.fin 5))]⟩ ⟨true, varr []⟩ =
      .error "TypeError: raw.map is not a function" := by
  constructor
  · rfl
  · rfl

/-- C10 (amended): when the primary response is not ok the monitor issues
the identical query (same status filter, `order=desc`, `limit=200`) to the
fallback endpoint `/api/deals` and uses its payload.  A bare array is
accepted; an object whose `deals` field is an array is accepted; an object
whose `deals` field is falsy and whose `items` field is an array is
accepted; an object with falsy or absent `deals` and `items` yields the
empty deals list.  A payload whose selected `deals`/`items` field is
truthy but not an array instead makes the poll fail with a caught
`TypeError` (see the counterexample). -/
theorem C10_pull_deals :
    (∀ f : String, ∃ q : String,
      monDealsUrl f = "/api/mon/deals" ++ q ∧ fallbackDealsUrl f = "/api/deals" ++ q) ∧
    (∀ primary fallback : FetchResp, primary.ok = false →
      pullDealsResult primary fallback = mapDealRows (dealsRaw fallback.body)) ∧
    (∀ (l : List JSVal) (fallback : FetchResp),
      pullDealsResult ⟨true, varr l⟩ fallback = .ok (l.map normalizeDealRow)) ∧
    (∀ (j : JSVal) (l : List JSVal), isArray j = false → chainGet j "deals" = varr l →
      mapDealRows (dealsRaw j) = .ok (l.map normalizeDealRow)) ∧
    (∀ (j : JSVal) (l : List JSVal), isArray j = false →
      truthy (chainGet j "deals") = false → chainGet j "items" = varr l →
      mapDealRows (dealsRaw j) = .ok (l.map normalizeDealRow)) ∧
    (∀ j : JSVal, isArray j = false → truthy (chainGet j "deals") = false →
      truthy (chainGet j "items") = false → mapDealRows (dealsRaw j) = .ok []) := by
  refine ⟨?_, ?_, ?_, ?_, ?_, ?_⟩
  · intro f
    refine ⟨"?status=" ++ encodeURIComponent f ++ "&order=desc&limit=200", ?_, ?_⟩
    · show "/api/mon/deals?status=" ++ encodeURIComponent f ++ "&order=desc&limit=200" = _
      rw [show ("/api/mon/deals?status=" : String) = "/api/mon/deals" ++ "?status=" from rfl]
      rw [String.append_assoc, String.append_assoc, String.append_assoc]
    · show "/api/deals?status=" ++ encodeURIComponent f ++ "&order=desc&limit=200" = _
      rw [show ("/api/deals?status=" : String) = "/api/deals" ++ "?status=" from rfl]
      rw [String.append_assoc, String.append_assoc, String.append_assoc]
  · intro primary fallback hok
    unfold pullDealsResult pullDealsJson
    rw [hok]
    simp
  · intro l fallback
    rfl
  · intro j l hja hjd
    unfold dealsRaw
    rw [hja, hjd]
    simp [mapDealRows, truthy]
  · intro j l hja hjd hji
    unfold dealsRaw
    rw [hja, hjd, hji]
    simp [mapDealRows, truthy]
  · intro j hja hjd hji
    unfold dealsRaw
    rw [hja, hjd, hji]
    simp [mapDealRows]

/-- Witness for C10 (amended): a failed primary poll falls back to the
fallback payload, and an object with falsy `deals`/`items` yields the
empty list. -/
theorem C10_witness :
    pullDealsResult ⟨false, vnull⟩ ⟨true, vobj [("deals", vnull)]⟩ = .ok [] := by
  rw [C10_pull_deals.2.1 ⟨false, vnull⟩ ⟨true, vobj [("deals", vnull)]⟩ rfl]
  exact C10_pull_deals.2.2.2.2.2 (vobj [("deals", vnull)]) rfl rfl rfl

/-! ### C1, C4 — engine boundary and validation claims -/

/-- A `ParameterSet` that validates successfully has matching tier-vector
lengths and stochastic spending weights. -/
theorem validate_ok_conds (p : ParameterSet) (hv : validate p = .ok ()) :
    p.L.length = p.omega.length ∧ p.omega.sum = 1 := by
  unfold validate at hv
  have h1 : ¬ (p.L.length ≠ p.omega.length) := by
    intro hc
    rw [if_pos hc] at hv
    exact Except.noConfusion hv
  rw [if_neg h1] at hv
  have h2 : ¬ ¬ (∀ x ∈ p.L, 0 ≤ x ∧ x ≤ 1) := by
    intro hc
    rw [if_pos hc] at hv
    exact Except.noConfusion hv
  rw [if_neg h2] at hv
  have h3 : ¬ ¬ (∀ x ∈ p.omega, 0 ≤ x ∧ x ≤ 1) := by
    intro hc
    rw [if_pos hc] at hv
    exact Except.noConfusion hv
  rw [if_neg h3] at hv
  have h4 : ¬ (p.omega.sum ≠ 1) := by
    intro hc
    rw [if_pos hc] at hv
    exact Except.noConfusion hv
  exact ⟨not_ne_iff.mp h1, not_ne_iff.mp h4⟩

/-- Weighting a vector of ones: when every mapped tier multiplier is `1`,
the weighted sum collapses to the sum of the weights. -/
theorem sum_zipWith_ones (om l : List ℚ) (f : ℚ → ℚ)
    (hlen : om.length = l.length) (hone : ∀ x ∈ l, f x = 1) :
    (List.zipWith (fun w x => w * x) om (l.map f)).sum = om.sum := by
  induction om generalizing l with
  | nil => simp
  | cons a om ih =>
    cases l with
    | nil => simp at hlen
    | cons b l =>
      simp only [List.map_cons, List.zipWith_cons_cons, List.sum_cons]
      rw [hone b (List.mem_cons_self b l), mul_one,
        ih l (by simpa using hlen) (fun x hx => hone x (List.mem_cons_of_mem b hx))]

/-- C1: for every valid `ParameterSet` with `L_i = 1` for every tier,
`compute` succeeds and returns a `SimulationResult` with `k_i = 1` for
every tier and `deltaM = G` exactly — full leakage collapses each tier
multiplier to the initial injection. -/
theorem C1_full_leakage (p : ParameterSet) (hv : validate p = .ok ())
    (hL : ∀ x ∈ p.L, x = 1) :
    ∃ r : SimulationResult, compute p = .ok r ∧
      r.k_i.length = p.L.length ∧ (∀ x ∈ r.k_i, x = 1) ∧ r.deltaM = p.G := by
  obtain ⟨hlen, hsum⟩ := validate_ok_conds p hv
  have hone : ∀ x ∈ p.L, tierMultiplier p.lambda p.tau x = 1 := by
    intro x hx
    rw [hL x hx]
    unfold tierMultiplier
    ring
  have hk : (computeCore p).k_i = p.L.map (tierMultiplier p.lambda p.tau) := rfl
  refine ⟨computeCore p, by simp [compute, hv], ?_, ?_, ?_⟩
  · rw [hk, List.length_map]
  · intro x hx
    rw [hk] at hx
    obtain ⟨y, hy, hxy⟩ := List.mem_map.mp hx
    rw [← hxy]
    exact hone y hy
  · show p.G * (List.zipWith (fun w x => w * x) p.omega
      (p.L.map (tierMultiplier p.lambda p.tau))).sum = p.G
    rw [sum_zipWith_ones p.omega p.L _ hlen.symm hone, hsum, mul_one]

/-- A valid parameter set with full leakage in every tier. -/
def exParams : ParameterSet :=
  { L := [1, 1], omega := [1, 0], lambda := 1, tau := 0, G := 5,
    venture := ⟨0, 0, 0, 0⟩, nk := ⟨0, 0⟩, markov := ⟨false, [], [], []⟩ }

/-- Witness for C1 at a concrete fully-leaking parameter set. -/
theorem C1_witness :
    ∃ r : SimulationResult, compute exParams = .ok r ∧
      r.k_i.length = exParams.L.length ∧ (∀ x ∈ r.k_i, x = 1) ∧
      r.deltaM = exParams.G :=
  C1_full_leakage exParams (by norm_num [validate, exParams])
    (by norm_num [exParams])

/-- C4: a `ParameterSet` whose spending weights do not sum to 1 is
rejected by the compute entry point with a structured ValidationError,
before any computation — no result (partial or otherwise) is produced —
and when the weights are the only offence the error names the `omega`
field. -/
theorem C4_omega_sum_rejected (p : ParameterSet) (hsum : p.omega.sum ≠ 1) :
    (∃ e : ValidationError, compute p = .error e) ∧
    (∀ r : SimulationResult, compute p ≠ .ok r) ∧
    (p.L.length = p.omega.length → (∀ x ∈ p.L, 0 ≤ x ∧ x ≤ 1) →
      (∀ x ∈ p.omega, 0 ≤ x ∧ x ≤ 1) →
      compute p = .error ⟨"omega", "spending weights must sum to 1"⟩) := by
  have hne : ∀ u : Unit, validate p ≠ .ok u := by
    intro u hok
    cases u
    exact hsum (validate_ok_conds p hok).2
  have herr : ∃ e, validate p = .error e := by
    cases hval : validate p with
    | error e => exact ⟨e, rfl⟩
    | ok u => exact absurd hval (hne u)
  obtain ⟨e, he⟩ := herr
  refine ⟨⟨e, by simp [compute, he]⟩, ?_, ?_⟩
  · intro r hr
    simp [compute, he] at hr
  · intro hlen hLr hOr
    have hval : validate p = .error ⟨"omega", "spending weights must sum to 1"⟩ := by
      unfold validate
      rw [if_neg (not_ne_iff.mpr hlen), if_neg (not_not_intro hLr),
        if_neg (not_not_intro hOr), if_pos hsum]
    simp [compute, hval]

/-- A parameter set whose weights sum to 9/10. -/
def exBadParams : ParameterSet := { exParams with omega := [1/2, 2/5] }

/-- Witness for C4 at a concrete parameter set with weights summing to
`0.9`. -/
theorem C4_witness :
    compute exBadParams = .error ⟨"omega", "spending weights must sum to 1"⟩ :=
  (C4_omega_sum_rejected exBadParams (by norm_num [exBadParams, exParams])).2.2
    (by norm_num [exBadParams, exParams]) (by norm_num [exBadParams, exParams])
    (by norm_num [exBadParams, exParams])

end EconStim
